import Mathlib

/-!
Verification of the statistics computation engine of `osmnx/stats.py`.

The module computes descriptive geometric and topological measures over
street networks represented as directed multigraphs.  We embed the graph
data model shallowly: a graph is a list of nodes (each carrying an id,
`y`/`x` coordinates and an optional precomputed `street_count` attribute)
and a list of directed edges (each carrying its endpoints and a `length`
attribute), together with a directedness flag and the value of the external
`projection.is_projected` predicate on the graph's CRS metadata.

Python numbers are modelled as `ℚ` (the claims under study are structural,
not about rounding).  Fallible Python code is modelled with `Except String`,
the error string naming the exception class the source raises.  External
collaborators that are not part of the repository's staged sources
(`utils_graph.get_undirected`, the distance oracles of `distance`, the
`projection.is_projected` predicate and
`simplification.consolidate_intersections`) are modelled from the spec, as
marked on each such definition.
-/

namespace OsmnxStats

/-- A graph node: its id and the `y`, `x` coordinate attributes; the
`street_count` attribute is precomputed elsewhere and may be absent
(`nx.get_node_attributes` then skips the node). -/
structure Node where
  nid : ℕ
  y : ℚ
  x : ℚ
  street_count : Option ℕ
deriving DecidableEq, Repr

/-- A directed multigraph edge with its `length` attribute (meters). -/
structure Edge where
  u : ℕ
  v : ℕ
  length : ℚ
deriving DecidableEq, Repr

/-- A (multi)graph: node list, edge list (parallel edges permitted as
repeated list entries), the `nx.is_directed` flag, and the value of the
external `projection.is_projected` predicate on the graph's `crs`
attribute (modelled from the spec §6: a predicate `is_projected(crs)`,
abstracted here to the Boolean it yields for this graph). -/
structure Graph where
  directed : Bool
  crs_projected : Bool
  nodes : List Node
  edges : List Edge
deriving DecidableEq, Repr

/-- Source `streets_per_node(G)`: the `street_count` node attribute per node, as
`nx.get_node_attributes` collects it — nodes lacking the attribute are
simply absent from the mapping.  (The source also logs a non-fatal warning
when the attributed set differs from the node set; logging does not affect
the returned value.) -/
def streets_per_node (G : Graph) : List (ℕ × ℕ) :=
  G.nodes.filterMap (fun nd => nd.street_count.map (fun c => (nd.nid, c)))

/-- Source `streets_per_node_avg(G) = sum(spn.values()) / len(G.nodes)`; Python
raises `ZeroDivisionError` when the graph has no nodes. -/
def streets_per_node_avg (G : Graph) : Except String ℚ :=
  if G.nodes.length = 0 then .error "ZeroDivisionError"
  else .ok ((((streets_per_node G).map Prod.snd).sum : ℚ) / (G.nodes.length : ℚ))

/-- Python's `max(spn_vals)` over a nonempty list of naturals. -/
def spn_max (vals : List ℕ) : ℕ := vals.foldl max 0

/-- The histogram `{i: spn_vals.count(i) for i in range(max(spn_vals) + 1)}`. -/
def spn_counts_core (vals : List ℕ) : List (ℕ × ℕ) :=
  (List.range (spn_max vals + 1)).map (fun i => (i, vals.count i))

/-- Source `streets_per_node_counts(G)`: the histogram keyed `0..max`; Python's
`max` raises `ValueError` on an empty sequence, i.e. when no node carries
the `street_count` attribute. -/
def streets_per_node_counts (G : Graph) : Except String (List (ℕ × ℕ)) :=
  let vals := (streets_per_node G).map Prod.snd
  if vals = [] then .error "ValueError"
  else .ok (spn_counts_core vals)

/-- Source `streets_per_node_proportions(G)`: the histogram divided entrywise by
`n = len(G.nodes)`. -/
def streets_per_node_proportions (G : Graph) : Except String (List (ℕ × ℚ)) :=
  match streets_per_node_counts G with
  | .error e => .error e
  | .ok spnc => .ok (spnc.map (fun p => (p.1, (p.2 : ℚ) / (G.nodes.length : ℚ))))

/-- Source `intersection_count(G, min_streets)`:
`sum(count >= min_streets and node in node_ids for node, count in spn.items())`
with `node_ids = set(G.nodes)`.  The source defaults `min_streets` to 2. -/
def intersection_count (G : Graph) (min_streets : ℤ) : ℕ :=
  let spn := streets_per_node G
  let node_ids := G.nodes.map Node.nid
  spn.countP (fun p => decide (min_streets ≤ (p.2 : ℤ) ∧ p.1 ∈ node_ids))

/-- Source `street_segment_count(Gu)`: the edge count of the undirected view;
raises `ValueError` if the supplied graph is directed. -/
def street_segment_count (Gu : Graph) : Except String ℕ :=
  if Gu.directed then .error "ValueError" else .ok Gu.edges.length

/-- Source `street_length_total(Gu) = sum(d["length"] for u, v, d in Gu.edges)`;
raises `ValueError` if the supplied graph is directed. -/
def street_length_total (Gu : Graph) : Except String ℚ :=
  if Gu.directed then .error "ValueError"
  else .ok ((Gu.edges.map Edge.length).sum)

/-- Source `edge_length_total(G) = sum(d["length"] for u, v, d in G.edges)`; no
directedness precondition. -/
def edge_length_total (G : Graph) : ℚ :=
  (G.edges.map Edge.length).sum

/-- Source `self_loop_proportion(Gu) = sum(u == v for u, v, k in Gu.edges) / len(Gu.edges)`;
raises `ValueError` on a directed input and `ZeroDivisionError` (integer
division by a Python `int` zero) on an edgeless graph. -/
def self_loop_proportion (Gu : Graph) : Except String ℚ :=
  if Gu.directed then .error "ValueError"
  else if Gu.edges.length = 0 then .error "ZeroDivisionError"
  else .ok ((Gu.edges.countP (fun e => e.u == e.v) : ℚ) / (Gu.edges.length : ℚ))

/-- Source `Gu.nodes[i]`: attribute lookup of a node id. -/
def node_attrs (G : Graph) (i : ℕ) : Option Node :=
  G.nodes.find? (fun nd => nd.nid == i)

/-- One entry of the `coords` array of `circuity_avg`:
`(Gu.nodes[u]["y"], Gu.nodes[u]["x"], Gu.nodes[v]["y"], Gu.nodes[v]["x"])`;
`none` models the `KeyError` a missing endpoint node raises. -/
def edge_coords (G : Graph) (e : Edge) : Option (ℚ × ℚ × ℚ × ℚ) :=
  match node_attrs G e.u, node_attrs G e.v with
  | some nu, some nv => some (nu.y, nu.x, nv.y, nv.x)
  | _, _ => none

/-- The `coords` comprehension of `circuity_avg` over a list of edges;
`none` when any endpoint lookup raises `KeyError`. -/
def coords_list_aux (G : Graph) : List Edge → Option (List (ℚ × ℚ × ℚ × ℚ))
  | [] => some []
  | e :: es =>
    match edge_coords G e, coords_list_aux G es with
    | some c, some cs => some (c :: cs)
    | _, _ => none

/-- The full `coords` list comprehension of `circuity_avg`; `none` when any
endpoint lookup raises `KeyError`. -/
def coords_list (G : Graph) : Option (List (ℚ × ℚ × ℚ × ℚ)) :=
  coords_list_aux G G.edges

/-- The value `circuity_avg` produces.  `sl_dists_total` in the source is a
NumPy `float64` scalar (`ndarray.sum()`), so the final Python division
`edge_length_total(Gu) / sl_dists_total` follows IEEE-754 semantics: with a
zero denominator it yields `inf`, `-inf` or `nan` (with a runtime warning)
and never raises `ZeroDivisionError`, which makes the source's
`except ZeroDivisionError: return None` branch (the `undef` sentinel here)
unreachable.  `err` models a raised exception. -/
inductive CircuityResult where
  | val (q : ℚ)
  | inf
  | negInf
  | nan
  | undef
  | err (msg : String)
deriving DecidableEq, Repr

/-- Source `circuity_avg(Gu)`.  The straight-line distance collaborators
(`distance.euclidean_dist_vec`, `distance.great_circle_vec`) are external
to the staged sources; modelled from the spec §6 as oracles
`ℚ → ℚ → ℚ → ℚ → Option ℚ` (one distance per coordinate quadruple, `none`
standing for a not-a-number entry on degenerate input, which the source
masks out with `~np.isnan`).  Control flow follows the source: directedness
check; the `coords` comprehension (`KeyError` on a missing endpoint node);
on an empty edge set `np.array([])` is 1-dimensional, so `coords[:, 0]`
raises `IndexError`; otherwise the masked sum is formed and the final
division performed under NumPy semantics (see `CircuityResult`). -/
def circuity_avg (euc gc : ℚ → ℚ → ℚ → ℚ → Option ℚ) (Gu : Graph) : CircuityResult :=
  if Gu.directed then .err "ValueError"
  else match coords_list Gu with
  | none => .err "KeyError"
  | some coords =>
    if coords = [] then .err "IndexError"
    else
      let d := if Gu.crs_projected then euc else gc
      let sl := coords.map (fun c => d c.1 c.2.1 c.2.2.1 c.2.2.2)
      let sl_dists_total := (sl.filterMap id).sum
      let num := edge_length_total Gu
      if sl_dists_total = 0 then
        if 0 < num then .inf else if num < 0 then .negInf else .nan
      else .val (num / sl_dists_total)

/-- The reverse of a directed edge (endpoints swapped, attributes kept). -/
def reverseOf (e : Edge) : Edge := ⟨e.v, e.u, e.length⟩

/-- Modelled from the spec: `utils_graph.get_undirected` is not among the
staged sources.  Per §3, "a bidirectional pair of directed edges between
the same two nodes collapses into a single undirected edge", while
"if multiple parallel edges exist with different attribute values, all are
preserved as parallel undirected edges, not merged".  Each directed edge is
therefore kept, after cancelling one matching opposite-direction duplicate
when one exists; a self-loop is its own reversal and is not a bidirectional
pair, so self-loops pass through unchanged. -/
def undirected_edges : List Edge → List Edge
  | [] => []
  | e :: rest =>
    if e.u ≠ e.v ∧ reverseOf e ∈ rest then
      e :: undirected_edges (rest.erase (reverseOf e))
    else
      e :: undirected_edges rest
termination_by es => es.length
decreasing_by
  · exact Nat.lt_succ_of_le (List.Sublist.length_le (List.erase_sublist _ _))
  · exact Nat.lt_succ_of_le (Nat.le_refl _)

/-- Modelled from the spec §4.1: the Undirected-View Adapter returns an
undirected multigraph preserving all node attributes, with edge duplicates
collapsed as `undirected_edges` describes. -/
def get_undirected (G : Graph) : Graph :=
  { G with directed := false, edges := undirected_edges G.edges }

/-- Whether two directed edges are parallel duplicates (same endpoints in
the same order, same attributes) or opposite-direction duplicates (same
endpoints swapped, same attributes). -/
def duplicate_or_reverse (e f : Edge) : Bool :=
  (e == f) || (f == reverseOf e)

/-- No two directed edges of the list are parallel duplicates or
opposite-direction duplicates of one another. -/
def no_duplicate_edges : List Edge → Bool
  | [] => true
  | e :: rest => rest.all (fun f => !(duplicate_or_reverse e f)) && no_duplicate_edges rest

/-- Truthiness of the `clean_int_tol` parameter as Python's
`if clean_int_tol:` evaluates it: `None` and `0.0` are falsy. -/
def truthyTol : Option ℚ → Bool
  | some t => t != 0
  | none => false

/-- Source `area / 1_000_000`: square meters to square kilometers. -/
def area_km (a : ℚ) : ℚ := a / 1000000

/-- The flat stats report `basic_stats` assembles.  Conditional keys
(density metrics, clean-intersection metrics) are `Option` fields: `none`
models the key being absent from the returned dict. -/
structure Stats where
  n : ℕ
  m : ℕ
  k_avg : ℚ
  edge_length_total : ℚ
  edge_length_avg : ℚ
  streets_per_node_avg : ℚ
  streets_per_node_counts : List (ℕ × ℕ)
  streets_per_node_proportions : List (ℕ × ℚ)
  intersection_count : ℕ
  street_length_total : ℚ
  street_segment_count : ℕ
  street_length_avg : ℚ
  circuity_avg : CircuityResult
  self_loop_proportion : ℚ
  clean_intersection_count : Option ℕ
  node_density_km : Option ℚ
  intersection_density_km : Option ℚ
  edge_density_km : Option ℚ
  street_density_km : Option ℚ
  clean_intersection_density_km : Option ℚ
deriving DecidableEq, Repr

/-- Source `basic_stats(G, area=None, clean_int_tol=None, ...)`.

`euc`/`gc` are the straight-line distance oracles of `circuity_avg`;
`consolidate_count` models the external
`simplification.consolidate_intersections(G, tolerance, rebuild_graph=False,
dead_ends=False)` collaborator, of which the source consumes only the
cardinality (spec §4.5); the three trailing parameters are the deprecated
`clean_intersects` / `tolerance` / `circuity_dist` shims, which only emit
warnings and never influence the report.

Checks mirror the source's statement order: `k_avg = 2 * m / n` raises
`ZeroDivisionError` on an empty node set; `edge_length_avg` on an empty
edge set; `streets_per_node_counts` propagates its `ValueError` when no
node carries `street_count` (`streets_per_node_avg` cannot fail here since
`n ≠ 0` was already established); `street_length_avg` divides by
`street_segment_count(Gu)`, raising when the undirected view has no edges;
`circuity_avg` propagates any exception of its own; `self_loop_proportion`
then succeeds since `Gu` is undirected with edges.  The clean-intersection
count is guarded by the truthiness test `if clean_int_tol:`; density keys
by `if area is not None:`, whose divisions raise on `area == 0`. -/
def basic_stats (euc gc : ℚ → ℚ → ℚ → ℚ → Option ℚ)
    (consolidate_count : Graph → ℚ → ℕ) (G : Graph)
    (area clean_int_tol : Option ℚ)
    (_clean_intersects : Option Bool) (_tolerance : Option ℚ)
    (_circuity_dist : Option String) :
    Except String Stats :=
  let Gu := get_undirected G
  let n := G.nodes.length
  let m := G.edges.length
  if n = 0 then .error "ZeroDivisionError"
  else if m = 0 then .error "ZeroDivisionError"
  else match streets_per_node_counts G with
  | .error e => .error e
  | .ok cnts =>
    if Gu.edges.length = 0 then .error "ZeroDivisionError"
    else match circuity_avg euc gc Gu with
    | .err e => .error e
    | circ =>
      let vals := (streets_per_node G).map Prod.snd
      let elt := edge_length_total G
      let slt := (Gu.edges.map Edge.length).sum
      let ssc := Gu.edges.length
      let cleanCount : Option ℕ :=
        match clean_int_tol with
        | some t => if t ≠ 0 then some (consolidate_count G t) else none
        | none => none
      let base : Stats :=
        { n := n
          m := m
          k_avg := 2 * (m : ℚ) / (n : ℚ)
          edge_length_total := elt
          edge_length_avg := elt / (m : ℚ)
          streets_per_node_avg := (vals.sum : ℚ) / (n : ℚ)
          streets_per_node_counts := cnts
          streets_per_node_proportions :=
            cnts.map (fun p => (p.1, (p.2 : ℚ) / (n : ℚ)))
          intersection_count := intersection_count G 2
          street_length_total := slt
          street_segment_count := ssc
          street_length_avg := slt / (ssc : ℚ)
          circuity_avg := circ
          self_loop_proportion :=
            (Gu.edges.countP (fun e => e.u == e.v) : ℚ) / (ssc : ℚ)
          clean_intersection_count := cleanCount
          node_density_km := none
          intersection_density_km := none
          edge_density_km := none
          street_density_km := none
          clean_intersection_density_km := none }
      match area with
      | none => .ok base
      | some a =>
        if a = 0 then .error "ZeroDivisionError"
        else .ok { base with
          node_density_km := some ((n : ℚ) / area_km a)
          intersection_density_km := some ((intersection_count G 2 : ℚ) / area_km a)
          edge_density_km := some (elt / area_km a)
          street_density_km := some (slt / area_km a)
          clean_intersection_density_km :=
            match cleanCount with
            | some c => some ((c : ℚ) / area_km a)
            | none => none }

/-! ### Concrete graphs and oracles used in closed evaluations -/

/-- Modelled from the spec §8: a representative straight-line distance
oracle for concrete evaluations; the straight-line distance between
coincident endpoints is 0 ("circuity_avg is undefined (straight-line
distance 0)" for a self-loop), and the coordinate quadruples of the other
concrete edges below are mapped to 1. -/
def dist0 (y1 x1 y2 x2 : ℚ) : Option ℚ :=
  if y1 = y2 ∧ x1 = x2 then some 0 else some 1

/-- A constant consolidation collaborator: one merged cluster. -/
def cons1 : Graph → ℚ → ℕ := fun _ _ => 1

/-- Two nodes, both carrying `street_count = 3`, one directed edge of
length 5 between them (a one-way street). -/
def G9 : Graph :=
  { directed := true, crs_projected := true
    nodes := [⟨0, 0, 0, some 3⟩, ⟨1, 0, 1, some 3⟩]
    edges := [⟨0, 1, 5⟩] }

/-- A graph whose `street_count` attributes do not cover the node set: node
1 lacks the attribute. -/
def G3c : Graph :=
  { directed := true, crs_projected := true
    nodes := [⟨0, 0, 0, some 1⟩, ⟨1, 0, 1, none⟩]
    edges := [] }

/-- An undirected graph holding a single self-loop edge of length 50 at a
node, with (necessarily) coincident endpoint coordinates. -/
def selfLoopG : Graph :=
  { directed := false, crs_projected := true
    nodes := [⟨0, 0, 0, some 1⟩]
    edges := [⟨0, 0, 50⟩] }

/-- An undirected graph with a node but no edges. -/
def emptyEdgesG : Graph :=
  { directed := false, crs_projected := true
    nodes := [⟨0, 0, 0, some 1⟩]
    edges := [] }

/-- An undirected one-edge graph. -/
def GuW : Graph :=
  { directed := false, crs_projected := true
    nodes := [⟨0, 0, 0, some 3⟩, ⟨1, 0, 1, some 3⟩]
    edges := [⟨0, 1, 5⟩] }

/-- A directed one-edge graph. -/
def GdW : Graph :=
  { directed := true, crs_projected := true
    nodes := [⟨0, 0, 0, some 3⟩, ⟨1, 0, 1, some 3⟩]
    edges := [⟨0, 1, 5⟩] }

/-- A fully bidirectional street: a pair of opposite-direction duplicate
directed edges of length 5. -/
def Gbi : Graph :=
  { directed := true, crs_projected := true
    nodes := [⟨0, 0, 0, some 1⟩, ⟨1, 0, 1, some 1⟩]
    edges := [⟨0, 1, 5⟩, ⟨1, 0, 5⟩] }

/-- The report `basic_stats` computes for `G9` with no optional
parameters. -/
def rW9 : Stats :=
  { n := 2, m := 1, k_avg := 1, edge_length_total := 5, edge_length_avg := 5
    streets_per_node_avg := 3
    streets_per_node_counts := [(0, 0), (1, 0), (2, 0), (3, 2)]
    streets_per_node_proportions := [(0, 0), (1, 0), (2, 0), (3, 1)]
    intersection_count := 2, street_length_total := 5
    street_segment_count := 1, street_length_avg := 5
    circuity_avg := .val 5, self_loop_proportion := 0
    clean_intersection_count := none
    node_density_km := none, intersection_density_km := none
    edge_density_km := none, street_density_km := none
    clean_intersection_density_km := none }

/-- The report `basic_stats` computes for `G9` with `area = 2_000_000`
(2 km²) and `clean_int_tol = 15` under the `cons1` collaborator. -/
def rW2 : Stats :=
  { n := 2, m := 1, k_avg := 1, edge_length_total := 5, edge_length_avg := 5
    streets_per_node_avg := 3
    streets_per_node_counts := [(0, 0), (1, 0), (2, 0), (3, 2)]
    streets_per_node_proportions := [(0, 0), (1, 0), (2, 0), (3, 1)]
    intersection_count := 2, street_length_total := 5
    street_segment_count := 1, street_length_avg := 5
    circuity_avg := .val 5, self_loop_proportion := 0
    clean_intersection_count := some 1
    node_density_km := some 1, intersection_density_km := some 1
    edge_density_km := some (5 / 2), street_density_km := some (5 / 2)
    clean_intersection_density_km := some (1 / 2) }

/-- Decidable equality of `Except` results, for closed evaluations. -/
instance exceptDecEq {ε α : Type} [DecidableEq ε] [DecidableEq α] :
    DecidableEq (Except ε α) := fun a b =>
  match a, b with
  | .error x, .error y =>
    if h : x = y then .isTrue (by rw [h]) else .isFalse (by simp [h])
  | .error _, .ok _ => .isFalse (by simp)
  | .ok _, .error _ => .isFalse (by simp)
  | .ok x, .ok y =>
    if h : x = y then .isTrue (by rw [h]) else .isFalse (by simp [h])

/-! ### Helper lemmas -/

/-- The initial accumulator bounds Python's `max` fold from below. -/
theorem foldl_max_init_le (l : List ℕ) : ∀ b, b ≤ l.foldl max b := by
  induction l with
  | nil => simp
  | cons a t ih => intro b; exact le_trans (le_max_left b a) (ih (max b a))

/-- Every member bounds Python's `max` fold from below. -/
theorem mem_le_foldl_max (l : List ℕ) : ∀ b, ∀ v ∈ l, v ≤ l.foldl max b := by
  induction l with
  | nil => simp
  | cons a t ih =>
    intro b v hv
    rcases List.mem_cons.mp hv with h | h
    · subst h; exact le_trans (le_max_right b v) (foldl_max_init_le t _)
    · exact ih _ v h

/-- Every observed street count is at most `spn_max`. -/
theorem le_spn_max (vals : List ℕ) : ∀ v ∈ vals, v ≤ spn_max vals :=
  mem_le_foldl_max vals 0

/-- A `List.range` sum as a `Finset.range` sum. -/
theorem list_range_map_sum {M : Type} [AddCommMonoid M] (n : ℕ) (f : ℕ → M) :
    ((List.range n).map f).sum = ∑ i ∈ Finset.range n, f i := by
  induction n with
  | zero => simp
  | succ n ih => rw [List.range_succ, Finset.sum_range_succ, List.map_append]; simp [ih]

/-- Summing a value's multiplicities over `0..n-1` recounts the whole list,
provided every value lies below `n`. -/
theorem sum_count_eq_length (vals : List ℕ) (n : ℕ) (h : ∀ v ∈ vals, v < n) :
    ∑ i ∈ Finset.range n, vals.count i = vals.length := by
  induction vals with
  | nil => simp
  | cons a t ih =>
    have ha : a ∈ Finset.range n := Finset.mem_range.mpr (h a (by simp))
    have ht : ∀ v ∈ t, v < n := fun v hv => h v (by simp [hv])
    simp only [List.count_cons, beq_iff_eq, List.length_cons]
    rw [Finset.sum_add_distrib, ih ht,
      Finset.sum_ite_eq (Finset.range n) a (fun _ => 1)]
    simp [ha]

/-- The key-weighted histogram sum recovers the total of the list, provided
every value lies below `n`. -/
theorem sum_mul_count_eq (vals : List ℕ) (n : ℕ) (h : ∀ v ∈ vals, v < n) :
    ∑ i ∈ Finset.range n, i * vals.count i = vals.sum := by
  induction vals with
  | nil => simp
  | cons a t ih =>
    have ha : a ∈ Finset.range n := Finset.mem_range.mpr (h a (by simp))
    have ht : ∀ v ∈ t, v < n := fun v hv => h v (by simp [hv])
    simp only [List.count_cons, beq_iff_eq, List.sum_cons]
    have hsplit : ∀ x : ℕ, x * (t.count x + if a = x then 1 else 0)
        = x * t.count x + (if a = x then x else 0) := by
      intro x
      rcases eq_or_ne a x with rfl | hne
      · simp [Nat.mul_add]
      · simp [hne]
    rw [Finset.sum_congr rfl (fun x _ => hsplit x), Finset.sum_add_distrib, ih ht,
      Finset.sum_ite_eq (Finset.range n) a (fun x => x)]
    simp [ha, Nat.add_comm]

/-- Dividing each summand divides the sum. -/
theorem list_sum_div {α : Type} (l : List α) (f : α → ℚ) (d : ℚ) :
    (l.map (fun x => f x / d)).sum = (l.map f).sum / d := by
  induction l with
  | nil => simp
  | cons a t ih => simp [ih, add_div]

/-- The histogram's values sum to the number of observed street counts. -/
theorem spn_counts_core_sum (vals : List ℕ) :
    ((spn_counts_core vals).map Prod.snd).sum = vals.length := by
  unfold spn_counts_core
  rw [List.map_map, list_range_map_sum]
  exact sum_count_eq_length vals _
    (fun v hv => Nat.lt_succ_of_le (le_spn_max vals v hv))

/-- The histogram's key-weighted values sum to the total street count. -/
theorem spn_counts_core_dot (vals : List ℕ) :
    ((spn_counts_core vals).map (fun p => p.1 * p.2)).sum = vals.sum := by
  unfold spn_counts_core
  rw [List.map_map, list_range_map_sum]
  exact sum_mul_count_eq vals _
    (fun v hv => Nat.lt_succ_of_le (le_spn_max vals v hv))

/-- The dot product of the proportions histogram recovers the mean: each
key weighted by its proportion sums to the total over `n`. -/
theorem spn_props_dot (vals : List ℕ) (n : ℚ) :
    (((spn_counts_core vals).map (fun p => (p.1, (p.2 : ℚ) / n))).map
        (fun p => (p.1 : ℚ) * p.2)).sum = (vals.sum : ℚ) / n := by
  have hdot := spn_counts_core_dot vals
  rw [List.map_map]
  have hmap : List.map
        ((fun p : ℕ × ℚ => (p.1 : ℚ) * p.2) ∘ fun p : ℕ × ℕ => (p.1, (p.2 : ℚ) / n))
        (spn_counts_core vals)
      = (spn_counts_core vals).map (fun p => ((p.1 * p.2 : ℕ) : ℚ) / n) := by
    refine List.map_congr_left fun p _ => ?_
    simp only [Function.comp]
    push_cast
    ring
  rw [hmap, list_sum_div]
  congr 1
  rw [← hdot, Nat.cast_list_sum, List.map_map]
  rfl

/-- Under `no_duplicate_edges`, the undirected view keeps every directed
edge: no bidirectional pair exists to collapse. -/
theorem undirected_edges_eq_self :
    ∀ es : List Edge, no_duplicate_edges es = true → undirected_edges es = es := by
  intro es
  induction es with
  | nil => intro _; unfold undirected_edges; rfl
  | cons e rest ih =>
    intro h
    simp only [no_duplicate_edges, Bool.and_eq_true, List.all_eq_true] at h
    rw [undirected_edges, if_neg, ih h.2]
    rintro ⟨-, hmem⟩
    have := h.1 (reverseOf e) hmem
    simp [duplicate_or_reverse] at this

/-- Unfolding `intersection_count` over an explicit node list: when every node's id is
in `ids`, the membership conjunct of the source's filter is vacuous and the
count is a plain count over the attributed nodes. -/
theorem intersection_count_aux (ms : ℤ) (ids : List ℕ) :
    ∀ ns : List Node, (∀ nd ∈ ns, nd.nid ∈ ids) →
      (ns.filterMap (fun nd => nd.street_count.map (fun c => (nd.nid, c)))).countP
          (fun p => decide (ms ≤ (p.2 : ℤ) ∧ p.1 ∈ ids)) =
        ns.countP (fun nd =>
          match nd.street_count with
          | some c => decide (ms ≤ (c : ℤ))
          | none => false) := by
  intro ns
  induction ns with
  | nil => intro _; rfl
  | cons nd t ih =>
    intro h
    have hnd : nd.nid ∈ ids := h nd (by simp)
    have ht : ∀ x ∈ t, x.nid ∈ ids := fun x hx => h x (by simp [hx])
    cases hsc : nd.street_count with
    | none =>
      simp only [List.filterMap_cons, hsc, Option.map_none', List.countP_cons]
      rw [ih ht]
      simp
    | some c =>
      simp only [List.filterMap_cons, hsc, Option.map_some', List.countP_cons]
      rw [ih ht]
      simp [hnd]

/-! ### The claims -/

/-- Claim C1 (code bug): the spec requires `circuity_avg` to return the
`None` sentinel, without raising, whenever the summed straight-line
distances are exactly zero.  The code instead divides by a NumPy float64
zero, which yields `inf` (never `ZeroDivisionError`, so the `except`
branch returning `None` is dead code), and on an empty edge set it raises
`IndexError` from `coords[:, 0]` before any division.  Evaluated here at
the two failing inputs: a single zero-distance self-loop of length 50
(result `inf`, not the sentinel) and an empty edge set (raises). -/
theorem c1_circuity_zero_denominator_bug :
    circuity_avg dist0 dist0 selfLoopG = .inf ∧
    circuity_avg dist0 dist0 emptyEdgesG = .err "IndexError" ∧
    (CircuityResult.inf ≠ CircuityResult.undef ∧
      CircuityResult.err "IndexError" ≠ CircuityResult.undef) := by
  with_unfolding_all decide

/-- Claim C4: every undirected-only metric (`street_segment_count`,
`street_length_total`, `self_loop_proportion`, `circuity_avg`) fails with
the precondition error (`ValueError`) on a directed graph, producing no
partial result, and `street_segment_count` of an undirected graph is its
edge count. -/
theorem c4_undirected_only_metrics (Gu Gd : Graph)
    (hu : Gu.directed = false) (hd : Gd.directed = true) :
    street_segment_count Gu = .ok Gu.edges.length ∧
    street_segment_count Gd = .error "ValueError" ∧
    street_length_total Gd = .error "ValueError" ∧
    self_loop_proportion Gd = .error "ValueError" ∧
    ∀ euc gc, circuity_avg euc gc Gd = .err "ValueError" := by
  refine ⟨?_, ?_, ?_, ?_, fun euc gc => ?_⟩ <;>
    simp [street_segment_count, street_length_total, self_loop_proportion,
      circuity_avg, hu, hd]

/-- Witness for C4 at a concrete undirected/directed pair of one-edge
graphs. -/
theorem c4_witness :
    street_segment_count GuW = .ok 1 ∧
    street_segment_count GdW = .error "ValueError" :=
  ⟨(c4_undirected_only_metrics GuW GdW rfl rfl).1,
   (c4_undirected_only_metrics GuW GdW rfl rfl).2.1⟩

/-- Claim C5: `streets_per_node_avg` always divides the summed street
counts by the full node count `|V(G)|` (never by the number of nodes the
mapping covers), so a partial mapping can only lower the average —
formalized by the accompanying inequality against division by the
mapping's own size. -/
theorem c5_avg_divides_by_node_count (G : Graph) (h : G.nodes ≠ []) :
    streets_per_node_avg G =
      .ok ((((streets_per_node G).map Prod.snd).sum : ℚ) / (G.nodes.length : ℚ)) ∧
    ((((streets_per_node G).map Prod.snd).sum : ℚ) / (G.nodes.length : ℚ) ≤
      (((streets_per_node G).map Prod.snd).sum : ℚ) /
        ((streets_per_node G).length : ℚ)) := by
  have hlen : G.nodes.length ≠ 0 := by simpa [List.length_eq_zero] using h
  constructor
  · simp [streets_per_node_avg, hlen]
  · rcases eq_or_ne (streets_per_node G) [] with hspn | hspn
    · simp [hspn]
    · have h1 : 0 < ((streets_per_node G).length : ℚ) := by
        exact_mod_cast List.length_pos.mpr hspn
      have h2 : ((streets_per_node G).length : ℚ) ≤ (G.nodes.length : ℚ) := by
        exact_mod_cast List.length_filterMap_le _ G.nodes
      gcongr

/-- Witness for C5 at the two-node concrete graph. -/
theorem c5_witness :
    streets_per_node_avg G9 =
      .ok ((((streets_per_node G9).map Prod.snd).sum : ℚ) / (G9.nodes.length : ℚ)) :=
  (c5_avg_divides_by_node_count G9 (by simp [G9])).1

/-- Claim C6: when no two directed edges are parallel duplicates or
opposite-direction duplicates (every street one-way), the undirected view
collapses nothing and the total street length equals the total directed
edge length; with a bidirectional pair present (the concrete graph `Gbi`)
the equality fails. -/
theorem c6_one_way_length_roundtrip (G : Graph)
    (h : no_duplicate_edges G.edges = true) :
    street_length_total (get_undirected G) = .ok (edge_length_total G) ∧
    street_length_total (get_undirected Gbi) ≠ .ok (edge_length_total Gbi) := by
  constructor
  · simp [street_length_total, get_undirected, edge_length_total,
      undirected_edges_eq_self G.edges h]
  · with_unfolding_all decide

/-- Witness for C6 at the concrete one-way graph. -/
theorem c6_witness :
    street_length_total (get_undirected G9) = .ok (edge_length_total G9) :=
  (c6_one_way_length_roundtrip G9 (by with_unfolding_all decide)).1

/-- Claim C7: `intersection_count` is monotonically non-increasing in the
`min_streets` threshold. -/
theorem c7_intersection_count_monotone (G : Graph) (j k : ℤ) (h : j ≤ k) :
    intersection_count G k ≤ intersection_count G j := by
  unfold intersection_count
  refine List.countP_mono_left fun p _ hp => ?_
  simp only [decide_eq_true_eq] at hp ⊢
  exact ⟨le_trans h hp.1, hp.2⟩

/-- Witness for C7 at the concrete two-node graph with thresholds 1 ≤ 2. -/
theorem c7_witness : intersection_count G9 2 ≤ intersection_count G9 1 :=
  c7_intersection_count_monotone G9 1 2 (by norm_num)

/-- Claim C8: for an undirected graph with at least one edge the self-loop
proportion is a value in [0, 1]; for an edgeless undirected graph the call
raises `ZeroDivisionError` rather than silently returning 0. -/
theorem c8_self_loop_bounds (Gu : Graph) (h : Gu.directed = false) :
    (Gu.edges ≠ [] → ∃ p, self_loop_proportion Gu = .ok p ∧ 0 ≤ p ∧ p ≤ 1) ∧
    (Gu.edges = [] → self_loop_proportion Gu = .error "ZeroDivisionError") := by
  constructor
  · intro hne
    have hlen : Gu.edges.length ≠ 0 := by simpa [List.length_eq_zero] using hne
    have hpos : (0 : ℚ) < (Gu.edges.length : ℚ) := by
      exact_mod_cast Nat.pos_of_ne_zero hlen
    refine ⟨(Gu.edges.countP (fun e => e.u == e.v) : ℚ) / (Gu.edges.length : ℚ),
      ?_, ?_, ?_⟩
    · simp [self_loop_proportion, h, hlen]
    · positivity
    · rw [div_le_one hpos]
      exact_mod_cast List.countP_le_length _
  · intro he
    simp [self_loop_proportion, h, he]

/-- Witness for C8: the single-self-loop graph has a proportion in [0, 1]
and the edgeless graph raises. -/
theorem c8_witness :
    (∃ p, self_loop_proportion selfLoopG = .ok p ∧ 0 ≤ p ∧ p ≤ 1) ∧
    self_loop_proportion emptyEdgesG = .error "ZeroDivisionError" :=
  ⟨(c8_self_loop_bounds selfLoopG rfl).1 (by simp [selfLoopG]),
   (c8_self_loop_bounds emptyEdgesG rfl).2 rfl⟩

/-- Claim C10: `intersection_count` counts exactly the nodes that are
present in the current node set and carry a `street_count` attribute of at
least `min_streets`.  Node attributes live on the graph's nodes
(`nx.get_node_attributes` reads only current nodes), so an entry for a
removed node cannot survive into `streets_per_node` and the source's
`node in node_ids` conjunct never excludes anything — the count reduces to
a plain count over the current nodes. -/
theorem c10_intersection_membership (G : Graph) (min_streets : ℤ) :
    intersection_count G min_streets =
      G.nodes.countP (fun nd =>
        match nd.street_count with
        | some c => decide (min_streets ≤ (c : ℤ))
        | none => false) := by
  unfold intersection_count streets_per_node
  exact intersection_count_aux min_streets (G.nodes.map Node.nid) G.nodes
    (fun nd hnd => List.mem_map_of_mem Node.nid hnd)

/-- Claim C3 (amended): for every graph in which at least one node carries
the `street_count` attribute, the histogram values of
`streets_per_node_counts` sum to the number of attributed nodes — the size
of the `streets_per_node` mapping, which equals `|V(G)|` only under full
coverage — and the dot product of keys and values of
`streets_per_node_proportions` equals `streets_per_node_avg`. -/
theorem c3_histogram_totals (G : Graph) (h : streets_per_node G ≠ []) :
    ∃ cnts props avg,
      streets_per_node_counts G = .ok cnts ∧
      streets_per_node_proportions G = .ok props ∧
      streets_per_node_avg G = .ok avg ∧
      (cnts.map Prod.snd).sum = (streets_per_node G).length ∧
      (props.map (fun p => (p.1 : ℚ) * p.2)).sum = avg := by
  have hv : (streets_per_node G).map Prod.snd ≠ [] := by
    simpa [List.map_eq_nil_iff] using h
  have hnodes : G.nodes.length ≠ 0 := by
    intro h0
    exact h (by simp [streets_per_node, List.length_eq_zero.mp h0])
  refine ⟨spn_counts_core ((streets_per_node G).map Prod.snd),
    (spn_counts_core ((streets_per_node G).map Prod.snd)).map
      (fun p => (p.1, (p.2 : ℚ) / (G.nodes.length : ℚ))),
    ((((streets_per_node G).map Prod.snd).sum : ℚ) / (G.nodes.length : ℚ)),
    ?_, ?_, ?_, ?_, ?_⟩
  · simp [streets_per_node_counts, hv]
  · simp [streets_per_node_proportions, streets_per_node_counts, hv]
  · simp [streets_per_node_avg, hnodes]
  · rw [spn_counts_core_sum, List.length_map]
  · exact spn_props_dot _ _

/-- Counterexample for C3 as frozen: in `G3c` one of the two nodes lacks
`street_count`, so the histogram values sum to 1, not to the node count 2. -/
theorem c3_counterexample :
    streets_per_node_counts G3c = .ok [(0, 0), (1, 1)] ∧
    (([(0, 0), (1, 1)] : List (ℕ × ℕ)).map Prod.snd).sum ≠ G3c.nodes.length := by
  with_unfolding_all decide

/-- Witness for C3 (amended) at the concrete fully-attributed graph. -/
theorem c3_witness :
    ∃ cnts props avg,
      streets_per_node_counts G9 = .ok cnts ∧
      streets_per_node_proportions G9 = .ok props ∧
      streets_per_node_avg G9 = .ok avg ∧
      (cnts.map Prod.snd).sum = (streets_per_node G9).length ∧
      (props.map (fun p => (p.1 : ℚ) * p.2)).sum = avg :=
  c3_histogram_totals G9 (by with_unfolding_all decide)

/-- Claim C9: every report `basic_stats` returns satisfies
`k_avg = 2 * m / n` for the report's own edge count `m` and node count
`n`. -/
theorem c9_k_avg (euc gc : ℚ → ℚ → ℚ → ℚ → Option ℚ)
    (consolidate_count : Graph → ℚ → ℕ) (G : Graph)
    (area clean_int_tol : Option ℚ) (clean_intersects : Option Bool)
    (tolerance : Option ℚ) (circuity_dist : Option String) (r : Stats)
    (h : basic_stats euc gc consolidate_count G area clean_int_tol
        clean_intersects tolerance circuity_dist = .ok r) :
    r.k_avg = 2 * (r.m : ℚ) / (r.n : ℚ) := by
  simp only [basic_stats] at h
  by_cases h1 : G.nodes.length = 0
  · rw [if_pos h1] at h; exact absurd h (by simp)
  rw [if_neg h1] at h
  by_cases h2 : G.edges.length = 0
  · rw [if_pos h2] at h; exact absurd h (by simp)
  rw [if_neg h2] at h
  split at h
  · exact absurd h (by simp)
  by_cases h3 : (get_undirected G).edges.length = 0
  · rw [if_pos h3] at h; exact absurd h (by simp)
  rw [if_neg h3] at h
  split at h
  · exact absurd h (by simp)
  · split at h
    · injection h with h4
      subst h4
      rfl
    · split at h
      · exact absurd h (by simp)
      · injection h with h4
        subst h4
        rfl

/-- Witness for C9: the concrete report of `G9` has
`k_avg = 2 * 1 / 2 = 1`. -/
theorem c9_witness : rW9.k_avg = 2 * (rW9.m : ℚ) / (rW9.n : ℚ) :=
  c9_k_avg dist0 dist0 cons1 G9 none none none none none rW9
    (by with_unfolding_all decide)

/-- Claim C2 (amended): in every report `basic_stats` returns, the four
density keys are present if and only if `area` was supplied (not `None`);
`clean_intersection_count` is present if and only if `clean_int_tol` is
truthy — supplied and nonzero, since the source guards with
`if clean_int_tol:` and Python treats `0.0` as falsy; and
`clean_intersection_density_km` is present if and only if `area` is
supplied and `clean_int_tol` is truthy. -/
theorem c2_conditional_keys (euc gc : ℚ → ℚ → ℚ → ℚ → Option ℚ)
    (consolidate_count : Graph → ℚ → ℕ) (G : Graph)
    (area clean_int_tol : Option ℚ) (clean_intersects : Option Bool)
    (tolerance : Option ℚ) (circuity_dist : Option String) (r : Stats)
    (h : basic_stats euc gc consolidate_count G area clean_int_tol
        clean_intersects tolerance circuity_dist = .ok r) :
    r.node_density_km.isSome = area.isSome ∧
    r.intersection_density_km.isSome = area.isSome ∧
    r.edge_density_km.isSome = area.isSome ∧
    r.street_density_km.isSome = area.isSome ∧
    r.clean_intersection_count.isSome = truthyTol clean_int_tol ∧
    r.clean_intersection_density_km.isSome =
      (area.isSome && truthyTol clean_int_tol) := by
  simp only [basic_stats] at h
  by_cases h1 : G.nodes.length = 0
  · rw [if_pos h1] at h; exact absurd h (by simp)
  rw [if_neg h1] at h
  by_cases h2 : G.edges.length = 0
  · rw [if_pos h2] at h; exact absurd h (by simp)
  rw [if_neg h2] at h
  split at h
  · exact absurd h (by simp)
  by_cases h3 : (get_undirected G).edges.length = 0
  · rw [if_pos h3] at h; exact absurd h (by simp)
  rw [if_neg h3] at h
  split at h
  · exact absurd h (by simp)
  · split at h
    · injection h with h4
      subst h4
      refine ⟨rfl, rfl, rfl, rfl, ?_, rfl⟩
      rcases clean_int_tol with _ | t
      · rfl
      · by_cases ht : t = 0
        · simp [truthyTol, ht]
        · simp [truthyTol, ht]
    · split at h
      · exact absurd h (by simp)
      · injection h with h4
        subst h4
        refine ⟨rfl, rfl, rfl, rfl, ?_, ?_⟩
        · rcases clean_int_tol with _ | t
          · rfl
          · by_cases ht : t = 0
            · simp [truthyTol, ht]
            · simp [truthyTol, ht]
        · rcases clean_int_tol with _ | t
          · rfl
          · by_cases ht : t = 0
            · simp [truthyTol, ht]
            · simp [truthyTol, ht]

/-- Counterexample for C2 as frozen: supplying the tolerance `0.0` (not
`None`) still omits `clean_intersection_count` from the returned report,
because `if clean_int_tol:` tests truthiness rather than `is not None`. -/
theorem c2_counterexample :
    (basic_stats dist0 dist0 cons1 G9 none (some 0) none none none).map
      Stats.clean_intersection_count = .ok none := by
  with_unfolding_all decide

/-- Witness for C2 (amended) at `area = 2_000_000`, `clean_int_tol = 15`:
all conditional keys present. -/
theorem c2_witness :
    rW2.node_density_km.isSome = (some (2000000 : ℚ)).isSome ∧
    rW2.intersection_density_km.isSome = (some (2000000 : ℚ)).isSome ∧
    rW2.edge_density_km.isSome = (some (2000000 : ℚ)).isSome ∧
    rW2.street_density_km.isSome = (some (2000000 : ℚ)).isSome ∧
    rW2.clean_intersection_count.isSome = truthyTol (some 15) ∧
    rW2.clean_intersection_density_km.isSome =
      ((some (2000000 : ℚ)).isSome && truthyTol (some 15)) :=
  c2_conditional_keys dist0 dist0 cons1 G9 (some 2000000) (some 15)
    none none none rW2 (by with_unfolding_all decide)

/-- Witness for C10 at the concrete two-node graph. -/
theorem c10_witness :
    intersection_count G9 2 =
      G9.nodes.countP (fun nd =>
        match nd.street_count with
        | some c => decide ((2 : ℤ) ≤ (c : ℤ))
        | none => false) :=
  c10_intersection_membership G9 2

end OsmnxStats
